import Mathlib

/-!
Verification of the LettuceDetect web API (`api/main.py`, `api/client.py`,
`api/serve.py`) by shallow embedding into Lean 4.

Conventions of the embedding:
* pydantic models become Lean structures with the same field names;
* Python floats carried opaquely (hallucination scores, probabilities,
  confidences are copied, never computed with) are modelled as `Rat`;
* a Python function that can raise becomes a Lean function into `Except`;
* `detector.predict` is an external collaborator; it is modelled as an
  oracle indexed by call number, so that "exactly one call, no retry" is
  expressible; its raw output dictionaries become `RawTokenPred` /
  `RawSpanPred`;
* the `asyncio.Lock` protecting the detector is modelled separately as a
  small-step transition system (see `GateState` below).
-/

/-- Wire values: the JSON-like self-describing structured format pydantic
serializes to and validates from. -/
inductive JValue where
  | str (s : String)
  | int (n : Int)
  | num (q : Rat)
  | arr (xs : List JValue)
  | obj (fields : List (String × JValue))

/-- Embeds `DetectionRequest` from api/main.py (also re-exported to the
client via the models module). -/
structure DetectionRequest where
  contexts : List String
  question : String
  answer : String
deriving DecidableEq, Repr

/-- Embeds `TokenDetectionItem` from api/main.py. -/
structure TokenDetectionItem where
  token : String
  hallucination_score : Rat
deriving DecidableEq, Repr

/-- Embeds `SpanDetectionItem` from api/main.py. `end` is a Lean keyword,
hence the guillemets; the field is the same `end` as in the source. -/
structure SpanDetectionItem where
  start : Int
  «end» : Int
  text : String
  hallucination_score : Rat
deriving DecidableEq, Repr

/-- Embeds `TokenDetectionResponse` from api/main.py. -/
structure TokenDetectionResponse where
  predictions : List TokenDetectionItem
deriving DecidableEq, Repr

/-- Embeds `SpanDetectionResponse` from api/main.py. -/
structure SpanDetectionResponse where
  predictions : List SpanDetectionItem
deriving DecidableEq, Repr

/-- Raw per-token output dictionary of `detector.predict(...,
output_format="tokens")`: token text and probability, as read by
`run_token_detection` via `p["token"]` and `p["prob"]`. -/
structure RawTokenPred where
  token : String
  prob : Rat
deriving DecidableEq, Repr

/-- Raw per-span output dictionary of `detector.predict(...,
output_format="spans")`: start, end, text and confidence, as read by
`run_span_detection` via `p["start"]`, `p["end"]`, `p["text"]`,
`p["confidence"]`. -/
structure RawSpanPred where
  start : Int
  «end» : Int
  text : String
  confidence : Rat
deriving DecidableEq, Repr

/-- An inference failure: the exception raised inside `detector.predict`.
The code of `run_detector_safe` installs no handler, so the surfaced error
is exactly the original exception, i.e. it carries its own cause. -/
structure InferenceError where
  cause : String
deriving DecidableEq, Repr

/-- The external detector, as consumed by api/main.py: `predict` is modelled
as two oracles (one per `output_format`), each indexed by the call number so
that single-call/no-retry properties can be stated. A call either returns
the raw prediction list or raises. -/
structure Detector where
  predictTokens : Nat → DetectionRequest → Except InferenceError (List RawTokenPred)
  predictSpans : Nat → DetectionRequest → Except InferenceError (List RawSpanPred)

/-- Embeds the body of `run_detector_safe` for `output_format="tokens"`:
one single call to `detector.predict` (call index 0), dispatched to the
threadpool while holding `detector_lock` (the lock itself is modelled by
`gateStep` below); no exception handler, no retry, so the result of the
one call is returned or its error propagates unchanged. -/
def run_detector_safe_tokens (d : Detector) (request : DetectionRequest) :
    Except InferenceError (List RawTokenPred) :=
  d.predictTokens 0 request

/-- Embeds the body of `run_detector_safe` for `output_format="spans"`;
see `run_detector_safe_tokens`. -/
def run_detector_safe_spans (d : Detector) (request : DetectionRequest) :
    Except InferenceError (List RawSpanPred) :=
  d.predictSpans 0 request

/-- Embeds the handler `run_token_detection` of api/main.py: call
`run_detector_safe` in tokens mode, then convert each raw prediction
dictionary field-for-field via the list comprehension
`[{"token": p["token"], "hallucination_score": p["prob"]} for p in preds]`.
An exception from the detector propagates (FastAPI turns it into a 500;
see `transport_token`). -/
def run_token_detection (d : Detector) (request : DetectionRequest) :
    Except InferenceError TokenDetectionResponse :=
  match run_detector_safe_tokens d request with
  | .error e => .error e
  | .ok preds => .ok ⟨preds.map fun p => ⟨p.token, p.prob⟩⟩

/-- Embeds the handler `run_span_detection` of api/main.py: call
`run_detector_safe` in spans mode, then convert each raw prediction
dictionary field-for-field via the list comprehension over
`{"start": p["start"], "end": p["end"], "text": p["text"],
"hallucination_score": p["confidence"]}`. -/
def run_span_detection (d : Detector) (request : DetectionRequest) :
    Except InferenceError SpanDetectionResponse :=
  match run_detector_safe_spans d request with
  | .error e => .error e
  | .ok preds => .ok ⟨preds.map fun p => ⟨p.start, p.«end», p.text, p.confidence⟩⟩

/-! ### Wire serialization (Schema Layer)

Pydantic (de)serialization of the two response models, restricted to the
shapes actually declared in api/main.py: field names exactly as declared,
lists serialized elementwise, unknown object fields ignored on read
(name-based lookup), any missing or wrongly-typed field a validation
failure. -/

/-- Name-based field lookup in a wire object; later duplicates shadowed by
the first occurrence, unknown fields ignored, as pydantic reads JSON
objects. -/
def jLookup (k : String) : List (String × JValue) → Option JValue
  | [] => none
  | (k', v) :: rest => if k' = k then some v else jLookup k rest

/-- Reads a wire value as a string, failing on any other kind. -/
def jAsStr : JValue → Option String
  | .str s => some s
  | _ => none

/-- Reads a wire value as an integer, failing on any other kind. -/
def jAsInt : JValue → Option Int
  | .int n => some n
  | _ => none

/-- Reads a wire value as a number, failing on any other kind. -/
def jAsNum : JValue → Option Rat
  | .num q => some q
  | _ => none

/-- Elementwise decoding of a wire array body, failing as soon as one
element fails, as pydantic validates a `list[...]` field. -/
def jDecodeList (f : JValue → Option α) : List JValue → Option (List α)
  | [] => some []
  | v :: vs =>
    match f v with
    | none => none
    | some x =>
      match jDecodeList f vs with
      | none => none
      | some xs => some (x :: xs)

/-- Serializes a `TokenDetectionItem` with its declared field names. -/
def serializeTokenItem (it : TokenDetectionItem) : JValue :=
  .obj [("token", .str it.token), ("hallucination_score", .num it.hallucination_score)]

/-- Validates a wire value as a `TokenDetectionItem`. -/
def deserializeTokenItem (v : JValue) : Option TokenDetectionItem :=
  match v with
  | .obj fs =>
    match jLookup "token" fs >>= jAsStr with
    | none => none
    | some tok =>
      match jLookup "hallucination_score" fs >>= jAsNum with
      | none => none
      | some sc => some ⟨tok, sc⟩
  | _ => none

/-- Serializes a `SpanDetectionItem` with its declared field names. -/
def serializeSpanItem (it : SpanDetectionItem) : JValue :=
  .obj [("start", .int it.start), ("end", .int it.«end»),
        ("text", .str it.text), ("hallucination_score", .num it.hallucination_score)]

/-- Validates a wire value as a `SpanDetectionItem`. -/
def deserializeSpanItem (v : JValue) : Option SpanDetectionItem :=
  match v with
  | .obj fs =>
    match jLookup "start" fs >>= jAsInt with
    | none => none
    | some s =>
      match jLookup "end" fs >>= jAsInt with
      | none => none
      | some e =>
        match jLookup "text" fs >>= jAsStr with
        | none => none
        | some t =>
          match jLookup "hallucination_score" fs >>= jAsNum with
          | none => none
          | some sc => some ⟨s, e, t, sc⟩
  | _ => none

/-- Serializes a `TokenDetectionResponse`: one `predictions` field holding
the elementwise-serialized list. -/
def serializeTokenResponse (r : TokenDetectionResponse) : JValue :=
  .obj [("predictions", .arr (r.predictions.map serializeTokenItem))]

/-- Validates a wire value as a `TokenDetectionResponse`. -/
def deserializeTokenResponse (v : JValue) : Option TokenDetectionResponse :=
  match v with
  | .obj fs =>
    match jLookup "predictions" fs with
    | some (.arr xs) =>
      match jDecodeList deserializeTokenItem xs with
      | none => none
      | some items => some ⟨items⟩
    | _ => none
  | _ => none

/-- Serializes a `SpanDetectionResponse`: one `predictions` field holding
the elementwise-serialized list. -/
def serializeSpanResponse (r : SpanDetectionResponse) : JValue :=
  .obj [("predictions", .arr (r.predictions.map serializeSpanItem))]

/-- Validates a wire value as a `SpanDetectionResponse`. -/
def deserializeSpanResponse (v : JValue) : Option SpanDetectionResponse :=
  match v with
  | .obj fs =>
    match jLookup "predictions" fs with
    | some (.arr xs) =>
      match jDecodeList deserializeSpanItem xs with
      | none => none
      | some items => some ⟨items⟩
    | _ => none
  | _ => none

/-! ### Transport layer -/

/-- An HTTP response: status code and structured body. -/
structure HttpResponse where
  status : Nat
  body : JValue

/-- Modelled from the spec: the FastAPI transport machinery (an external
collaborator, consumed as a capability) renders a handler result; a
successful return value is serialized through the declared response model
with a success status, and an exception that escapes the handler (here: an
inference failure) yields a server-error response with a generic failure
body that does not leak the cause verbatim. -/
def renderTransport (serialize : α → JValue) : Except InferenceError α → HttpResponse
  | .error _ => ⟨500, .obj [("detail", .str "Internal Server Error")]⟩
  | .ok v => ⟨200, serialize v⟩

/-- The token endpoint as seen on the wire: handler plus transport
rendering. -/
def transport_token (d : Detector) (request : DetectionRequest) : HttpResponse :=
  renderTransport serializeTokenResponse (run_token_detection d request)

/-- The spans endpoint as seen on the wire: handler plus transport
rendering. -/
def transport_spans (d : Detector) (request : DetectionRequest) : HttpResponse :=
  renderTransport serializeSpanResponse (run_span_detection d request)

/-! ### Span well-formedness (external detector contract) -/

/-- Python string slicing `s[a:b]` restricted to `0 <= a <= b <= len s`,
the only range the detector contract produces: the characters of `s` from
position `a` (inclusive) to `b` (exclusive). -/
def pySlice (s : String) (a b : Int) : String :=
  String.mk ((s.data.drop a.toNat).take (b.toNat - a.toNat))

/-- Modelled from the spec: the raw span output contract of the external
`HallucinationDetector.predict` (module `lettucedetect.models.inference`,
not part of this API surface): every emitted span has integer character
offsets into `answer` with `0 <= start <= end <= len(answer)` and carries
`text == answer[start:end]`. -/
def SpanPredWF (answer : String) (p : RawSpanPred) : Prop :=
  0 ≤ p.start ∧ p.start ≤ p.«end» ∧ p.«end» ≤ (answer.length : Int) ∧
    p.text = pySlice answer p.start p.«end»

instance (answer : String) (p : RawSpanPred) : Decidable (SpanPredWF answer p) := by
  unfold SpanPredWF; infer_instance

/-! ### Client binding (api/client.py) -/

/-- A response as httpx hands it to the client wrapper: status code and
body (the body as parsed wire structure; `model_validate_json` then
validates it against the response model). -/
structure HttpxResponse where
  status : Nat
  body : JValue

/-- One network request as issued by `httpx.request(method, url,
json=dict(request))`: the method, the fully joined URL and the serialized
`DetectionRequest` payload. -/
structure WireCall where
  method : String
  url : String
  payload : DetectionRequest

/-- Client-side failure taxonomy: `httpx.HTTPStatusError` carrying the
response (status and body), or a pydantic validation failure of a 2xx
body. -/
inductive ClientError where
  | httpStatusError (status : Nat) (body : JValue)
  | validationError

/-- The `Response.is_success` test of httpx: status in the 2xx range. -/
def is_success (status : Nat) : Bool :=
  decide (200 ≤ status) && decide (status < 300)

/-- Embeds `Response.raise_for_status` of httpx as consumed by the client:
a non-2xx response raises `HTTPStatusError` carrying the response, a 2xx
response passes through. -/
def raise_for_status (r : HttpxResponse) : Except ClientError Unit :=
  if is_success r.status then .ok () else .error (.httpStatusError r.status r.body)

/-- Embeds `_httpx_request_wrapper` of api/client.py: issue exactly one
request (the network oracle is consulted only at call index 0 — there is
no retry loop in the source), call `raise_for_status`, then validate the
body against the response model. The issued `WireCall` is returned
alongside the result so that what was sent is part of the observable
behavior. -/
def _httpx_request_wrapper (method url : String) (request : DetectionRequest)
    (network : Nat → WireCall → HttpxResponse) (validate : JValue → Option ρ) :
    WireCall × Except ClientError ρ :=
  let call : WireCall := ⟨method, url, request⟩
  let response := network 0 call
  ⟨call,
    match raise_for_status response with
    | .error e => .error e
    | .ok _ =>
      match validate response.body with
      | none => .error .validationError
      | some v => .ok v⟩

/-- Embeds `_httpx_request_wrapper_async` of api/client.py: identical to
the synchronous wrapper after erasing the suspension structure (`async
with httpx.AsyncClient()` / `await`). -/
def _httpx_request_wrapper_async (method url : String) (request : DetectionRequest)
    (network : Nat → WireCall → HttpxResponse) (validate : JValue → Option ρ) :
    WireCall × Except ClientError ρ :=
  let call : WireCall := ⟨method, url, request⟩
  let response := network 0 call
  ⟨call,
    match raise_for_status response with
    | .error e => .error e
    | .ok _ =>
      match validate response.body with
      | none => .error .validationError
      | some v => .ok v⟩

/-- The `_TOKEN_ENDPOINT` constant of `LettuceClientBase`. -/
def _TOKEN_ENDPOINT : String := "/v1/lettucedetect/token"

/-- The `_SPANS_ENDPOINT` constant of `LettuceClientBase`. -/
def _SPANS_ENDPOINT : String := "/v1/lettucedetect/spans"

/-- Splits a character list at the first occurrence of "://", returning
the scheme part and the remainder. -/
def splitSchemeAux : List Char → Option (List Char × List Char)
  | [] => none
  | ':' :: '/' :: '/' :: rest => some ([], rest)
  | c :: rest =>
    match splitSchemeAux rest with
    | none => none
    | some (pre, post) => some (c :: pre, post)

/-- Models `urllib.parse.urljoin` for the references this client produces:
both endpoint constants are absolute paths (they start with "/"), for
which urljoin keeps the scheme and network location of the base URL and
replaces its whole path. Other shapes of reference are not produced by the
code and are not modelled. -/
def urljoin (base rel : String) : String :=
  match rel.data with
  | '/' :: _ =>
    match splitSchemeAux base.data with
    | some (scheme, rest) =>
      String.mk (scheme ++ ':' :: '/' :: '/' :: rest.takeWhile (fun c => c ≠ '/')) ++ rel
    | none => rel
  | _ => rel

/-- The path component of a URL of the shape this client builds. -/
def urlPath (url : String) : String :=
  match splitSchemeAux url.data with
  | some (_, rest) => String.mk (rest.dropWhile (fun c => c ≠ '/'))
  | none => url

/-- Embeds `LettuceClient.detect_token`: build the `DetectionRequest`,
join the base URL with the token endpoint, and POST via the synchronous
wrapper, validating against `TokenDetectionResponse`. -/
def LettuceClient.detect_token (base_url : String) (contexts : List String)
    (question answer : String) (network : Nat → WireCall → HttpxResponse) :
    WireCall × Except ClientError TokenDetectionResponse :=
  let request : DetectionRequest := ⟨contexts, question, answer⟩
  let url := urljoin base_url _TOKEN_ENDPOINT
  _httpx_request_wrapper "post" url request network deserializeTokenResponse

/-- Embeds `LettuceClient.detect_spans`. -/
def LettuceClient.detect_spans (base_url : String) (contexts : List String)
    (question answer : String) (network : Nat → WireCall → HttpxResponse) :
    WireCall × Except ClientError SpanDetectionResponse :=
  let request : DetectionRequest := ⟨contexts, question, answer⟩
  let url := urljoin base_url _SPANS_ENDPOINT
  _httpx_request_wrapper "post" url request network deserializeSpanResponse

/-- Embeds `LettuceClientAsync.detect_token` (suspension erased). -/
def LettuceClientAsync.detect_token (base_url : String) (contexts : List String)
    (question answer : String) (network : Nat → WireCall → HttpxResponse) :
    WireCall × Except ClientError TokenDetectionResponse :=
  let request : DetectionRequest := ⟨contexts, question, answer⟩
  let url := urljoin base_url _TOKEN_ENDPOINT
  _httpx_request_wrapper_async "post" url request network deserializeTokenResponse

/-- Embeds `LettuceClientAsync.detect_spans` (suspension erased). -/
def LettuceClientAsync.detect_spans (base_url : String) (contexts : List String)
    (question answer : String) (network : Nat → WireCall → HttpxResponse) :
    WireCall × Except ClientError SpanDetectionResponse :=
  let request : DetectionRequest := ⟨contexts, question, answer⟩
  let url := urljoin base_url _SPANS_ENDPOINT
  _httpx_request_wrapper_async "post" url request network deserializeSpanResponse

/-- The route paths registered by api/main.py via `@app.post(...)`: these
are the only detection routes of the server. -/
def serverRoutes : List String := ["/lettucedetect/token", "/lettucedetect/spans"]

/-! ### Launch script (api/serve.py) -/

/-- The `choices` list of the `--method` argument in serve.py. -/
def methodChoices : List String := ["transformer"]

/-- The `default` of the `--method` argument in serve.py. -/
def defaultMethod : String := "transformer"

/-- The `default` of the `--model` argument in serve.py. -/
def defaultModel : String := "KRLabsOrg/lettucedect-base-modernbert-en-v1"

/-- Outcome of running the serve.py entry point: either `_run_fastapi`
was invoked (a server process is launched with these settings) or argparse
rejected the command line and exited before any launch. -/
inductive ServeOutcome where
  | started (model method : String)
  | usageError
deriving DecidableEq, Repr

/-- Embeds argparse resolution of the `--method` argument per serve.py:
an absent argument resolves to the default, a present one is accepted
exactly when it is among `choices`. -/
def parseMethodArg : Option String → Except String String
  | none => .ok defaultMethod
  | some v => if v ∈ methodChoices then .ok v else .error v

/-- Embeds serve.py `main`: `_argparse` first (argparse exits the process
on a bad argument), then `_run_fastapi` with the resolved settings. -/
def serve_main (modelArg methodArg : Option String) : ServeOutcome :=
  match parseMethodArg methodArg with
  | .error _ => .usageError
  | .ok m => .started (modelArg.getD defaultModel) m

/-! ### The detector gate (`detector_lock` in api/main.py)

`run_detector_safe` wraps its single `detector.predict` call in
`async with detector_lock` where `detector_lock = asyncio.Lock()`. The
control flow of a request through the gate is modelled as a transition
system: a request that has arrived tries to acquire the lock; if the lock
is free it becomes the owner and runs the inference call, otherwise it is
appended to the lock's waiter queue and suspends; when the owner finishes
(the `async with` block exits and releases the lock), the first queued
waiter — if any — is woken and becomes the owner. There is no failing
transition for a request that finds the lock busy. -/

/-- Phase of one request inside `run_detector_safe`. -/
inductive ReqPhase where
  | arrived
  | waiting
  | running
  | done
deriving DecidableEq, Repr

/-- Global state of the gate: per-request phases, the current lock owner,
and the lock's waiter queue in arrival order. -/
structure GateState where
  phases : List ReqPhase
  owner : Option Nat
  waiters : List Nat
deriving DecidableEq, Repr

/-- Phase of request `i` (requests outside the index range read as
`done`, i.e. not present). -/
def phaseOf (s : GateState) (i : Nat) : ReqPhase :=
  s.phases.getD i .done

/-- The two scheduler-visible events of `run_detector_safe`: request `i`
reaches the `async with detector_lock` line, or request `i`, currently
holding the lock, finishes its inference call and releases it. -/
inductive GateAction where
  | tryAcquire (i : Nat)
  | finish (i : Nat)

/-- One step of the gate. `tryAcquire i` is enabled when `i` has arrived:
a free lock is taken (the request starts its inference call), a held lock
appends `i` to the waiter queue and suspends it. `finish i` is enabled
when `i` owns the lock: the release hands the lock to the first queued
waiter when one exists, which then starts its inference call. -/
def gateStep (s : GateState) : GateAction → Option GateState
  | .tryAcquire i =>
    if phaseOf s i = .arrived then
      match s.owner with
      | none => some ⟨s.phases.set i .running, some i, s.waiters⟩
      | some _ => some ⟨s.phases.set i .waiting, s.owner, s.waiters ++ [i]⟩
    else none
  | .finish i =>
    if s.owner = some i then
      match s.waiters with
      | [] => some ⟨s.phases.set i .done, none, []⟩
      | j :: rest => some ⟨(s.phases.set i .done).set j .running, some j, rest⟩
    else none

/-- Initial state: `n` concurrent requests have arrived, the lock is free
with an empty waiter queue. -/
def initGate (n : Nat) : GateState :=
  ⟨List.replicate n .arrived, none, []⟩

/-- Reachability of a gate state by any interleaving of steps. -/
inductive GateReaches (s0 : GateState) : GateState → Prop where
  | refl : GateReaches s0 s0
  | step {s : GateState} {a : GateAction} {s' : GateState} :
      GateReaches s0 s → gateStep s a = some s' → GateReaches s0 s'

/-- The inductive gate invariant: exactly the lock owner is running, every
queued waiter is in the waiting phase, and the queue has no duplicates. -/
def GateInv (s : GateState) : Prop :=
  (∀ i, phaseOf s i = .running → s.owner = some i) ∧
  (∀ i, s.owner = some i → phaseOf s i = .running) ∧
  (∀ i, i ∈ s.waiters → phaseOf s i = .waiting) ∧
  s.waiters.Nodup

/-- List update read back at the written index. -/
theorem listGetD_set_self {α : Type} (l : List α) (i : Nat) (a d : α)
    (h : i < l.length) : (l.set i a).getD i d = a := by
  rw [List.getD_eq_getElem _ _ (by simpa using h)]
  simp

/-- List update read back at another index. -/
theorem listGetD_set_ne {α : Type} (l : List α) (i k : Nat) (a d : α)
    (h : k ≠ i) : (l.set i a).getD k d = l.getD k d := by
  rcases Nat.lt_or_ge k l.length with hk | hk
  · rw [List.getD_eq_getElem _ _ (by simpa using hk), List.getD_eq_getElem _ _ hk]
    exact List.getElem_set_ne (Ne.symm h) _
  · rw [List.getD_eq_default _ _ (by simpa using hk), List.getD_eq_default _ _ hk]

/-- Unfolding of `phaseOf` on a literal state. -/
theorem phaseOf_mk (l : List ReqPhase) (o : Option Nat) (w : List Nat) (k : Nat) :
    phaseOf ⟨l, o, w⟩ k = l.getD k .done := rfl

/-- A request whose phase is not `done` is within the index range. -/
theorem phaseOf_lt {s : GateState} {i : Nat} (h : phaseOf s i ≠ .done) :
    i < s.phases.length := by
  by_contra hlen
  exact h (List.getD_eq_default _ _ (Nat.le_of_not_lt hlen))

/-- Phase of the initial state: arrived inside the range, done outside. -/
theorem phaseOf_init (n i : Nat) :
    phaseOf (initGate n) i = if i < n then .arrived else .done := by
  unfold initGate
  rw [phaseOf_mk]
  rcases Nat.lt_or_ge i n with hi | hi
  · rw [if_pos hi, List.getD_eq_getElem _ _ (by simpa using hi)]
    simp
  · rw [if_neg (Nat.not_lt.mpr hi), List.getD_eq_default _ _ (by simpa using hi)]

/-- The gate invariant holds initially. -/
theorem gateInv_init (n : Nat) : GateInv (initGate n) := by
  refine ⟨?_, ?_, ?_, ?_⟩
  · intro i h
    rw [phaseOf_init] at h
    split at h <;> cases h
  · intro i h
    simp [initGate] at h
  · intro i h
    simp [initGate] at h
  · simp [initGate]

/-- The gate invariant is preserved by every step. -/
theorem gateStep_inv {s s' : GateState} {a : GateAction}
    (hinv : GateInv s) (hstep : gateStep s a = some s') : GateInv s' := by
  obtain ⟨h1, h2, h3, h4⟩ := hinv
  cases a with
  | tryAcquire i =>
    simp only [gateStep] at hstep
    split at hstep
    case isFalse => exact Option.noConfusion hstep
    case isTrue harr =>
    have hilen : i < s.phases.length := phaseOf_lt (by rw [harr]; intro hc; cases hc)
    split at hstep
    case h_1 hnone =>
      injection hstep with hs'
      subst hs'
      refine ⟨?_, ?_, ?_, h4⟩
      · intro k hk
        by_cases hki : k = i
        · subst hki; rfl
        · rw [phaseOf_mk, listGetD_set_ne _ _ _ _ _ hki] at hk
          have := h1 k hk
          rw [hnone] at this
          cases this
      · intro k hk
        injection hk with hk
        subst hk
        rw [phaseOf_mk, listGetD_set_self _ _ _ _ hilen]
      · intro k hk
        have hkw := h3 k hk
        have hki : k ≠ i := by
          intro hc
          subst hc
          rw [harr] at hkw
          cases hkw
        rw [phaseOf_mk, listGetD_set_ne _ _ _ _ _ hki]
        exact hkw
    case h_2 o hsome =>
      injection hstep with hs'
      subst hs'
      refine ⟨?_, ?_, ?_, ?_⟩
      · intro k hk
        have hki : k ≠ i := by
          intro hc
          subst hc
          rw [phaseOf_mk, listGetD_set_self _ _ _ _ hilen] at hk
          cases hk
        rw [phaseOf_mk, listGetD_set_ne _ _ _ _ _ hki] at hk
        exact h1 k hk
      · intro k hk
        have hrun := h2 k hk
        have hki : k ≠ i := by
          intro hc
          subst hc
          rw [harr] at hrun
          cases hrun
        rw [phaseOf_mk, listGetD_set_ne _ _ _ _ _ hki]
        exact hrun
      · intro k hk
        rw [List.mem_append] at hk
        rcases hk with hk | hk
        · have hkw := h3 k hk
          have hki : k ≠ i := by
            intro hc
            subst hc
            rw [harr] at hkw
            cases hkw
          rw [phaseOf_mk, listGetD_set_ne _ _ _ _ _ hki]
          exact hkw
        · rw [List.mem_singleton] at hk
          subst hk
          rw [phaseOf_mk, listGetD_set_self _ _ _ _ hilen]
      · have hinw : i ∉ s.waiters := by
          intro hc
          have := h3 i hc
          rw [harr] at this
          cases this
        simp [List.nodup_append, h4, hinw]
  | finish i =>
    simp only [gateStep] at hstep
    split at hstep
    case isFalse => exact Option.noConfusion hstep
    case isTrue hown =>
    have hirun : phaseOf s i = .running := h2 i hown
    have hilen : i < s.phases.length := phaseOf_lt (by rw [hirun]; intro hc; cases hc)
    split at hstep
    case h_1 hw =>
      injection hstep with hs'
      subst hs'
      refine ⟨?_, ?_, ?_, ?_⟩
      · intro k hk
        by_cases hki : k = i
        · subst hki
          rw [phaseOf_mk, listGetD_set_self _ _ _ _ hilen] at hk
          cases hk
        · rw [phaseOf_mk, listGetD_set_ne _ _ _ _ _ hki] at hk
          have := h1 k hk
          rw [hown] at this
          injection this with this
          exact absurd this.symm hki
      · intro k hk
        cases hk
      · intro k hk
        cases hk
      · exact List.nodup_nil
    case h_2 j rest hw =>
      injection hstep with hs'
      subst hs'
      have hjw : j ∈ s.waiters := by rw [hw]; exact List.mem_cons_self _ _
      have hjwait : phaseOf s j = .waiting := h3 j hjw
      have hjlen : j < s.phases.length := phaseOf_lt (by rw [hjwait]; intro hc; cases hc)
      have hji : j ≠ i := by
        intro hc
        rw [hc, hirun] at hjwait
        cases hjwait
      have hnodup : (j :: rest).Nodup := by rw [← hw]; exact h4
      have hjrest : j ∉ rest := (List.nodup_cons.mp hnodup).1
      have hrestnd : rest.Nodup := (List.nodup_cons.mp hnodup).2
      refine ⟨?_, ?_, ?_, hrestnd⟩
      · intro k hk
        by_cases hkj : k = j
        · subst hkj; rfl
        · rw [phaseOf_mk, listGetD_set_ne _ _ _ _ _ hkj] at hk
          by_cases hki : k = i
          · subst hki
            rw [listGetD_set_self _ _ _ _ hilen] at hk
            cases hk
          · rw [listGetD_set_ne _ _ _ _ _ hki] at hk
            have := h1 k hk
            rw [hown] at this
            injection this with this
            exact absurd this.symm hki
      · intro k hk
        injection hk with hk
        subst hk
        rw [phaseOf_mk, listGetD_set_self _ _ _ _ (by simpa using hjlen)]
      · intro k hk
        have hkw : k ∈ s.waiters := by rw [hw]; exact List.mem_cons_of_mem _ hk
        have hkwait := h3 k hkw
        have hki : k ≠ i := by
          intro hc
          rw [hc, hirun] at hkwait
          cases hkwait
        have hkj : k ≠ j := by
          intro hc
          subst hc
          exact hjrest hk
        rw [phaseOf_mk, listGetD_set_ne _ _ _ _ _ hkj, listGetD_set_ne _ _ _ _ _ hki]
        exact hkwait

/-- The gate invariant holds in every reachable state. -/
theorem gateInv_reaches {n : Nat} {s : GateState}
    (h : GateReaches (initGate n) s) : GateInv s := by
  induction h with
  | refl => exact gateInv_init n
  | step _ hstep ih => exact gateStep_inv ih hstep

/-! ### Claim theorems -/

/-- C2: for every valid `DetectionRequest` processed in token mode, the
response has exactly one item per raw model prediction, in the raw output
order, item `i` copying raw item `i`'s token text into `token` and its
probability into `hallucination_score`; no raw item is dropped or
added. -/
theorem run_token_detection_maps_raw_output (d : Detector)
    (request : DetectionRequest) (preds : List RawTokenPred)
    (h : d.predictTokens 0 request = .ok preds) :
    ∃ resp : TokenDetectionResponse,
      run_token_detection d request = .ok resp ∧
      resp.predictions.length = preds.length ∧
      ∀ i : Nat, resp.predictions[i]? =
        (preds[i]?).map fun p => ⟨p.token, p.prob⟩ := by
  refine ⟨⟨preds.map fun p => ⟨p.token, p.prob⟩⟩, ?_, ?_, ?_⟩
  · unfold run_token_detection run_detector_safe_tokens
    rw [h]
  · simp
  · intro i
    simp

/-- Witness for C2 at a concrete detector output. -/
theorem run_token_detection_maps_raw_output_witness :
    ∃ resp : TokenDetectionResponse,
      run_token_detection
          ⟨fun _ _ => .ok [⟨"Paris", 9/10⟩, ⟨".", 1/10⟩], fun _ _ => .ok []⟩
          ⟨["France is in Europe."], "Capital?", "Paris."⟩ = .ok resp ∧
      resp.predictions.length = ([⟨"Paris", 9/10⟩, ⟨".", 1/10⟩] : List RawTokenPred).length ∧
      ∀ i : Nat, resp.predictions[i]? =
        (([⟨"Paris", 9/10⟩, ⟨".", 1/10⟩] : List RawTokenPred)[i]?).map
          fun p => ⟨p.token, p.prob⟩ :=
  run_token_detection_maps_raw_output _ _ [⟨"Paris", 9/10⟩, ⟨".", 1/10⟩] rfl

/-- C3: for every valid `DetectionRequest` processed in span mode, the
response has exactly one item per raw model span, in the emitted order,
item `i` copying raw item `i`'s start, end and text and copying its
confidence into `hallucination_score`; no raw span is dropped or
added. -/
theorem run_span_detection_maps_raw_output (d : Detector)
    (request : DetectionRequest) (preds : List RawSpanPred)
    (h : d.predictSpans 0 request = .ok preds) :
    ∃ resp : SpanDetectionResponse,
      run_span_detection d request = .ok resp ∧
      resp.predictions.length = preds.length ∧
      ∀ i : Nat, resp.predictions[i]? =
        (preds[i]?).map fun p => ⟨p.start, p.«end», p.text, p.confidence⟩ := by
  refine ⟨⟨preds.map fun p => ⟨p.start, p.«end», p.text, p.confidence⟩⟩, ?_, ?_, ?_⟩
  · unfold run_span_detection run_detector_safe_spans
    rw [h]
  · simp
  · intro i
    simp

/-- Witness for C3 at a concrete detector output. -/
theorem run_span_detection_maps_raw_output_witness :
    ∃ resp : SpanDetectionResponse,
      run_span_detection
          ⟨fun _ _ => .ok [], fun _ _ => .ok [⟨0, 5, "Paris", 3/4⟩]⟩
          ⟨["France is in Europe."], "Capital?", "Paris."⟩ = .ok resp ∧
      resp.predictions.length = ([⟨0, 5, "Paris", 3/4⟩] : List RawSpanPred).length ∧
      ∀ i : Nat, resp.predictions[i]? =
        (([⟨0, 5, "Paris", 3/4⟩] : List RawSpanPred)[i]?).map
          fun p => ⟨p.start, p.«end», p.text, p.confidence⟩ :=
  run_span_detection_maps_raw_output _ _ [⟨0, 5, "Paris", 3/4⟩] rfl

/-- C4: every `SpanDetectionItem` produced by a span-mode detection for a
request with answer `A` satisfies `0 <= start <= end <= len A` and
`text = A[start:end]`, given the contract of the external detector
(`SpanPredWF`, modelled from the spec) on its raw spans; the handler
copies the raw fields unchanged, so the contract carries over to every
response item. -/
theorem run_span_detection_wellformed (d : Detector)
    (request : DetectionRequest) (preds : List RawSpanPred)
    (resp : SpanDetectionResponse)
    (hok : d.predictSpans 0 request = .ok preds)
    (hwf : ∀ p ∈ preds, SpanPredWF request.answer p)
    (hresp : run_span_detection d request = .ok resp) :
    ∀ it ∈ resp.predictions,
      0 ≤ it.start ∧ it.start ≤ it.«end» ∧
        it.«end» ≤ (request.answer.length : Int) ∧
        it.text = pySlice request.answer it.start it.«end» := by
  unfold run_span_detection run_detector_safe_spans at hresp
  rw [hok] at hresp
  injection hresp with hresp
  subst hresp
  intro it hit
  rw [List.mem_map] at hit
  obtain ⟨p, hp, hpit⟩ := hit
  obtain ⟨hwf1, hwf2, hwf3, hwf4⟩ := hwf p hp
  subst hpit
  exact ⟨hwf1, hwf2, hwf3, hwf4⟩

/-- Witness for C4 at a concrete well-formed detector output, specialized
to its first response item. -/
theorem run_span_detection_wellformed_witness :
    0 ≤ (SpanDetectionItem.mk 0 5 "Paris" (3/4)).start ∧
    (SpanDetectionItem.mk 0 5 "Paris" (3/4)).start ≤
      (SpanDetectionItem.mk 0 5 "Paris" (3/4)).«end» ∧
    (SpanDetectionItem.mk 0 5 "Paris" (3/4)).«end» ≤
      ((DetectionRequest.mk ["ctx"] "q" "Paris is big").answer.length : Int) ∧
    (SpanDetectionItem.mk 0 5 "Paris" (3/4)).text =
      pySlice (DetectionRequest.mk ["ctx"] "q" "Paris is big").answer
        (SpanDetectionItem.mk 0 5 "Paris" (3/4)).start
        (SpanDetectionItem.mk 0 5 "Paris" (3/4)).«end» :=
  run_span_detection_wellformed
    ⟨fun _ _ => .ok [], fun _ _ => .ok [⟨0, 5, "Paris", 3/4⟩, ⟨6, 8, "is", 1/4⟩]⟩
    ⟨["ctx"], "q", "Paris is big"⟩
    [⟨0, 5, "Paris", 3/4⟩, ⟨6, 8, "is", 1/4⟩]
    ⟨[⟨0, 5, "Paris", 3/4⟩, ⟨6, 8, "is", 1/4⟩]⟩
    rfl (by decide) rfl
    ⟨0, 5, "Paris", 3/4⟩ (List.mem_cons_self _ _)

/-- C5: if `detector.predict` raises during a detection call, the failure
surfaces unchanged (the surfaced `InferenceError` is the original one, so
it carries its cause); no retry happens (the handler's behavior depends
only on the first and only predict call) and no partial predictions are
returned (the result is the error, not an `ok` payload); the transport
renders it as a server-error (5xx, concretely 500) response. -/
theorem inference_failure_surfaced (d : Detector) (request : DetectionRequest)
    (e : InferenceError)
    (htok : d.predictTokens 0 request = .error e)
    (hspan : d.predictSpans 0 request = .error e) :
    run_token_detection d request = .error e ∧
    run_span_detection d request = .error e ∧
    (∀ d' : Detector, d'.predictTokens 0 = d.predictTokens 0 →
      run_token_detection d' request = run_token_detection d request) ∧
    (∀ d' : Detector, d'.predictSpans 0 = d.predictSpans 0 →
      run_span_detection d' request = run_span_detection d request) ∧
    (transport_token d request).status = 500 ∧
    (transport_spans d request).status = 500 ∧
    500 ≤ (transport_token d request).status ∧
    (transport_token d request).status < 600 := by
  have htokrun : run_token_detection d request = .error e := by
    unfold run_token_detection run_detector_safe_tokens
    rw [htok]
  have hspanrun : run_span_detection d request = .error e := by
    unfold run_span_detection run_detector_safe_spans
    rw [hspan]
  refine ⟨htokrun, hspanrun, ?_, ?_, ?_, ?_, ?_, ?_⟩
  · intro d' hsame
    unfold run_token_detection run_detector_safe_tokens
    rw [congrFun hsame request]
  · intro d' hsame
    unfold run_span_detection run_detector_safe_spans
    rw [congrFun hsame request]
  · unfold transport_token
    rw [htokrun]
    rfl
  · unfold transport_spans
    rw [hspanrun]
    rfl
  · unfold transport_token
    rw [htokrun]
    exact Nat.le_refl 500
  · unfold transport_token
    rw [htokrun]
    exact Nat.lt_of_sub_eq_succ rfl

/-- Witness for C5 at a concrete failing detector. -/
theorem inference_failure_surfaced_witness :
    run_token_detection
        ⟨fun _ _ => .error ⟨"CUDA out of memory"⟩, fun _ _ => .error ⟨"CUDA out of memory"⟩⟩
        ⟨["ctx"], "q", "a"⟩ = .error ⟨"CUDA out of memory"⟩ ∧
    run_span_detection
        ⟨fun _ _ => .error ⟨"CUDA out of memory"⟩, fun _ _ => .error ⟨"CUDA out of memory"⟩⟩
        ⟨["ctx"], "q", "a"⟩ = .error ⟨"CUDA out of memory"⟩ ∧
    (∀ d' : Detector,
      d'.predictTokens 0 =
        (Detector.mk (fun _ _ => .error ⟨"CUDA out of memory"⟩)
          (fun _ _ => .error ⟨"CUDA out of memory"⟩)).predictTokens 0 →
      run_token_detection d' ⟨["ctx"], "q", "a"⟩ =
        run_token_detection
          ⟨fun _ _ => .error ⟨"CUDA out of memory"⟩, fun _ _ => .error ⟨"CUDA out of memory"⟩⟩
          ⟨["ctx"], "q", "a"⟩) ∧
    (∀ d' : Detector,
      d'.predictSpans 0 =
        (Detector.mk (fun _ _ => .error ⟨"CUDA out of memory"⟩)
          (fun _ _ => .error ⟨"CUDA out of memory"⟩)).predictSpans 0 →
      run_span_detection d' ⟨["ctx"], "q", "a"⟩ =
        run_span_detection
          ⟨fun _ _ => .error ⟨"CUDA out of memory"⟩, fun _ _ => .error ⟨"CUDA out of memory"⟩⟩
          ⟨["ctx"], "q", "a"⟩) ∧
    (transport_token
        ⟨fun _ _ => .error ⟨"CUDA out of memory"⟩, fun _ _ => .error ⟨"CUDA out of memory"⟩⟩
        ⟨["ctx"], "q", "a"⟩).status = 500 ∧
    (transport_spans
        ⟨fun _ _ => .error ⟨"CUDA out of memory"⟩, fun _ _ => .error ⟨"CUDA out of memory"⟩⟩
        ⟨["ctx"], "q", "a"⟩).status = 500 ∧
    500 ≤ (transport_token
        ⟨fun _ _ => .error ⟨"CUDA out of memory"⟩, fun _ _ => .error ⟨"CUDA out of memory"⟩⟩
        ⟨["ctx"], "q", "a"⟩).status ∧
    (transport_token
        ⟨fun _ _ => .error ⟨"CUDA out of memory"⟩, fun _ _ => .error ⟨"CUDA out of memory"⟩⟩
        ⟨["ctx"], "q", "a"⟩).status < 600 :=
  inference_failure_surfaced _ _ ⟨"CUDA out of memory"⟩ rfl rfl

/-- C6: for every client call through the request wrappers (to which both
`detect_token` and `detect_spans` of both client variants delegate), a
non-2xx response makes the call raise `HTTPStatusError` carrying the
status and body; the behavior depends only on the single network request
at call index 0 (no retry); a 2xx response whose body fails response-model
validation raises a validation error; and a normally returned response is
exactly the fully validated body, never a partially-populated object. -/
theorem client_error_contract (ρ : Type) (method url : String)
    (request : DetectionRequest) (network : Nat → WireCall → HttpxResponse)
    (validate : JValue → Option ρ) :
    (is_success (network 0 ⟨method, url, request⟩).status = false →
      (_httpx_request_wrapper method url request network validate).2 =
        .error (.httpStatusError (network 0 ⟨method, url, request⟩).status
          (network 0 ⟨method, url, request⟩).body) ∧
      (_httpx_request_wrapper_async method url request network validate).2 =
        .error (.httpStatusError (network 0 ⟨method, url, request⟩).status
          (network 0 ⟨method, url, request⟩).body)) ∧
    (∀ network' : Nat → WireCall → HttpxResponse, network' 0 = network 0 →
      _httpx_request_wrapper method url request network' validate =
        _httpx_request_wrapper method url request network validate ∧
      _httpx_request_wrapper_async method url request network' validate =
        _httpx_request_wrapper_async method url request network validate) ∧
    (is_success (network 0 ⟨method, url, request⟩).status = true →
      validate (network 0 ⟨method, url, request⟩).body = none →
      (_httpx_request_wrapper method url request network validate).2 =
        .error .validationError ∧
      (_httpx_request_wrapper_async method url request network validate).2 =
        .error .validationError) ∧
    (∀ v : ρ, (_httpx_request_wrapper method url request network validate).2 = .ok v →
      validate (network 0 ⟨method, url, request⟩).body = some v) := by
  refine ⟨?_, ?_, ?_, ?_⟩
  · intro hfail
    constructor <;>
      simp [_httpx_request_wrapper, _httpx_request_wrapper_async,
        raise_for_status, hfail]
  · intro network' hnet
    constructor <;>
      simp only [_httpx_request_wrapper, _httpx_request_wrapper_async, hnet]
  · intro hsucc hval
    constructor <;>
      simp [_httpx_request_wrapper, _httpx_request_wrapper_async,
        raise_for_status, hsucc, hval]
  · intro v hok
    simp only [_httpx_request_wrapper, raise_for_status] at hok
    by_cases hs : is_success (network 0 ⟨method, url, request⟩).status = true
    · rw [if_pos hs] at hok
      revert hok
      cases hval : validate (network 0 ⟨method, url, request⟩).body with
      | none => intro hok; cases hok
      | some w => intro hok; injection hok with hw; rw [hw]
    · rw [if_neg hs] at hok
      cases hok

/-- Witness for C6: a 404 response raises `HTTPStatusError` with status
and body in both variants; behavior depends only on the single request;
a 200 response with an invalid body raises a validation error; a 200
response with a valid body is returned fully validated. -/
theorem client_error_contract_witness :
    ((_httpx_request_wrapper "post" "http://127.0.0.1:8000/v1/lettucedetect/token"
        ⟨["ctx"], "q", "a"⟩ (fun _ _ => ⟨404, .str "not found"⟩)
        deserializeTokenResponse).2 =
          .error (.httpStatusError 404 (.str "not found")) ∧
      (_httpx_request_wrapper_async "post" "http://127.0.0.1:8000/v1/lettucedetect/token"
        ⟨["ctx"], "q", "a"⟩ (fun _ _ => ⟨404, .str "not found"⟩)
        deserializeTokenResponse).2 =
          .error (.httpStatusError 404 (.str "not found"))) ∧
    (∀ network' : Nat → WireCall → HttpxResponse,
      network' 0 = (fun _ => ⟨404, .str "not found"⟩) →
      _httpx_request_wrapper "post" "http://127.0.0.1:8000/v1/lettucedetect/token"
        ⟨["ctx"], "q", "a"⟩ network' deserializeTokenResponse =
      _httpx_request_wrapper "post" "http://127.0.0.1:8000/v1/lettucedetect/token"
        ⟨["ctx"], "q", "a"⟩ (fun _ _ => ⟨404, .str "not found"⟩)
        deserializeTokenResponse ∧
      _httpx_request_wrapper_async "post" "http://127.0.0.1:8000/v1/lettucedetect/token"
        ⟨["ctx"], "q", "a"⟩ network' deserializeTokenResponse =
      _httpx_request_wrapper_async "post" "http://127.0.0.1:8000/v1/lettucedetect/token"
        ⟨["ctx"], "q", "a"⟩ (fun _ _ => ⟨404, .str "not found"⟩)
        deserializeTokenResponse) ∧
    ((_httpx_request_wrapper "post" "http://127.0.0.1:8000/v1/lettucedetect/token"
        ⟨["ctx"], "q", "a"⟩ (fun _ _ => ⟨200, .str "gibberish"⟩)
        deserializeTokenResponse).2 = .error .validationError ∧
      (_httpx_request_wrapper_async "post" "http://127.0.0.1:8000/v1/lettucedetect/token"
        ⟨["ctx"], "q", "a"⟩ (fun _ _ => ⟨200, .str "gibberish"⟩)
        deserializeTokenResponse).2 = .error .validationError) ∧
    deserializeTokenResponse (serializeTokenResponse ⟨[]⟩) = some ⟨[]⟩ :=
  ⟨(client_error_contract TokenDetectionResponse "post"
      "http://127.0.0.1:8000/v1/lettucedetect/token" ⟨["ctx"], "q", "a"⟩
      (fun _ _ => ⟨404, .str "not found"⟩) deserializeTokenResponse).1 (by decide),
   (client_error_contract TokenDetectionResponse "post"
      "http://127.0.0.1:8000/v1/lettucedetect/token" ⟨["ctx"], "q", "a"⟩
      (fun _ _ => ⟨404, .str "not found"⟩) deserializeTokenResponse).2.1,
   (client_error_contract TokenDetectionResponse "post"
      "http://127.0.0.1:8000/v1/lettucedetect/token" ⟨["ctx"], "q", "a"⟩
      (fun _ _ => ⟨200, .str "gibberish"⟩) deserializeTokenResponse).2.2.1
      (by decide) rfl,
   (client_error_contract TokenDetectionResponse "post"
      "http://127.0.0.1:8000/v1/lettucedetect/token" ⟨["ctx"], "q", "a"⟩
      (fun _ _ => ⟨200, serializeTokenResponse ⟨[]⟩⟩) deserializeTokenResponse).2.2.2
      ⟨[]⟩ rfl⟩

/-- Decoding an elementwise-encoded list recovers it when decoding
inverts encoding on every element. -/
theorem jDecodeList_map {α : Type} (f : JValue → Option α) (g : α → JValue)
    (h : ∀ x, f (g x) = some x) :
    ∀ xs : List α, jDecodeList f (xs.map g) = some xs := by
  intro xs
  induction xs with
  | nil => rfl
  | cons x xs ih => simp [jDecodeList, h x, ih]

/-- Item-level round-trip for token items. -/
theorem deserializeTokenItem_serialize (it : TokenDetectionItem) :
    deserializeTokenItem (serializeTokenItem it) = some it := rfl

/-- Item-level round-trip for span items. -/
theorem deserializeSpanItem_serialize (it : SpanDetectionItem) :
    deserializeSpanItem (serializeSpanItem it) = some it := rfl

/-- C7: serializing any `TokenDetectionResponse` or `SpanDetectionResponse`
to the wire format and deserializing it back yields the original value,
including when `predictions` is empty. -/
theorem response_roundtrip (tr : TokenDetectionResponse) (sr : SpanDetectionResponse) :
    deserializeTokenResponse (serializeTokenResponse tr) = some tr ∧
    deserializeSpanResponse (serializeSpanResponse sr) = some sr ∧
    deserializeTokenResponse (serializeTokenResponse ⟨[]⟩) = some ⟨[]⟩ ∧
    deserializeSpanResponse (serializeSpanResponse ⟨[]⟩) = some ⟨[]⟩ := by
  refine ⟨?_, ?_, rfl, rfl⟩
  · simp [serializeTokenResponse, deserializeTokenResponse, jLookup,
      jDecodeList_map _ _ deserializeTokenItem_serialize]
  · simp [serializeSpanResponse, deserializeSpanResponse, jLookup,
      jDecodeList_map _ _ deserializeSpanItem_serialize]

/-- C8: for every `(contexts, question, answer)` triple and base URL, the
blocking `LettuceClient` and the non-blocking `LettuceClientAsync`
produce identical observable behavior on both endpoints: the same POST
`WireCall` (method, joined URL, request payload) and, for the same network
behavior, equal typed results or the same error — the two variants differ
only in their suspension model, which the embedding erases. -/
theorem sync_async_parity (base_url : String) (contexts : List String)
    (question answer : String) (network : Nat → WireCall → HttpxResponse) :
    LettuceClient.detect_token base_url contexts question answer network =
      LettuceClientAsync.detect_token base_url contexts question answer network ∧
    LettuceClient.detect_spans base_url contexts question answer network =
      LettuceClientAsync.detect_spans base_url contexts question answer network ∧
    (LettuceClient.detect_token base_url contexts question answer network).1 =
      ⟨"post", urljoin base_url _TOKEN_ENDPOINT, ⟨contexts, question, answer⟩⟩ ∧
    (LettuceClient.detect_spans base_url contexts question answer network).1 =
      ⟨"post", urljoin base_url _SPANS_ENDPOINT, ⟨contexts, question, answer⟩⟩ :=
  ⟨rfl, rfl, rfl, rfl⟩

/-- C9: both clients post to the `/v1/...` endpoint paths while the server
only registers the two `/lettucedetect/...` routes, so the path of a
client call never equals any route path registered by this server (shown
both on the endpoint constants and on the path component of the URL built
against the documented local base URL). -/
theorem client_server_route_mismatch :
    (∀ route ∈ serverRoutes, route ≠ _TOKEN_ENDPOINT ∧ route ≠ _SPANS_ENDPOINT) ∧
    urlPath (urljoin "http://127.0.0.1:8000" _TOKEN_ENDPOINT) = _TOKEN_ENDPOINT ∧
    urlPath (urljoin "http://127.0.0.1:8000" _SPANS_ENDPOINT) = _SPANS_ENDPOINT ∧
    _TOKEN_ENDPOINT ∉ serverRoutes ∧ _SPANS_ENDPOINT ∉ serverRoutes := by
  refine ⟨?_, ?_, ?_, ?_, ?_⟩ <;> decide

/-- C10: the launch script's `--method` argument accepts exactly the
value "transformer": any other explicit value makes argument parsing
fail, so the script ends in a usage error before `_run_fastapi` launches
any server process, and an omitted `--method` resolves to
"transformer". -/
theorem serve_method_argument (modelArg : Option String) (v : String) :
    (serve_main modelArg (some v) = .usageError ↔ v ≠ "transformer") ∧
    serve_main modelArg none = .started (modelArg.getD defaultModel) "transformer" ∧
    serve_main modelArg (some "transformer") =
      .started (modelArg.getD defaultModel) "transformer" := by
  refine ⟨⟨?_, ?_⟩, rfl, rfl⟩
  · intro h hv
    subst hv
    simp [serve_main, parseMethodArg, methodChoices] at h
  · intro hv
    simp [serve_main, parseMethodArg, methodChoices, hv]

/-- Witness for C10 at a concrete bad value and the default. -/
theorem serve_method_argument_witness :
    (serve_main none (some "onnx") = .usageError ↔ "onnx" ≠ "transformer") ∧
    serve_main none none = .started ((none : Option String).getD defaultModel) "transformer" ∧
    serve_main none (some "transformer") =
      .started ((none : Option String).getD defaultModel) "transformer" :=
  serve_method_argument none "onnx"

/-- C1: across the whole process, at most one inference call executes at
any instant — in every state reachable from any number of concurrent
requests, at most one request is running `detector.predict`; a request
that reaches the gate while it is held suspends into the waiter queue
(it does not fail and does not run concurrently), and when the holder
releases the gate a queued waiter is handed the gate and is then
served. -/
theorem detector_lock_serializes_predict (n : Nat) (s : GateState)
    (h : GateReaches (initGate n) s) :
    (∀ i j, phaseOf s i = .running → phaseOf s j = .running → i = j) ∧
    (∀ i s', s.owner ≠ none → gateStep s (.tryAcquire i) = some s' →
      phaseOf s' i = .waiting ∧ i ∈ s'.waiters) ∧
    (∀ i j rest s', s.waiters = j :: rest → gateStep s (.finish i) = some s' →
      phaseOf s' j = .running ∧ s'.owner = some j) := by
  obtain ⟨h1, h2, h3, h4⟩ := gateInv_reaches h
  refine ⟨?_, ?_, ?_⟩
  · intro i j hi hj
    have := (h1 i hi).symm.trans (h1 j hj)
    injection this
  · intro i s' hbusy hstep
    simp only [gateStep] at hstep
    split at hstep
    case isFalse => exact Option.noConfusion hstep
    case isTrue harr =>
    have hilen : i < s.phases.length := phaseOf_lt (by rw [harr]; intro hc; cases hc)
    split at hstep
    case h_1 hnone => exact absurd hnone hbusy
    case h_2 o hsome =>
      injection hstep with hs'
      subst hs'
      constructor
      · rw [phaseOf_mk, listGetD_set_self _ _ _ _ hilen]
      · simp
  · intro i j rest s' hw hstep
    simp only [gateStep] at hstep
    split at hstep
    case isFalse => exact Option.noConfusion hstep
    case isTrue hown =>
    have hjw : j ∈ s.waiters := by rw [hw]; exact List.mem_cons_self _ _
    have hjwait : phaseOf s j = .waiting := h3 j hjw
    have hjlen : j < s.phases.length := phaseOf_lt (by rw [hjwait]; intro hc; cases hc)
    rw [hw] at hstep
    injection hstep with hs'
    subst hs'
    constructor
    · rw [phaseOf_mk, listGetD_set_self _ _ _ _ (by simpa using hjlen)]
    · rfl

/-- Witness for C1 at a concrete reachable two-request state in which
request 0 holds the gate. -/
theorem detector_lock_serializes_predict_witness :
    (∀ i j, phaseOf ⟨[.running, .arrived], some 0, []⟩ i = .running →
      phaseOf ⟨[.running, .arrived], some 0, []⟩ j = .running → i = j) ∧
    (∀ i s', (GateState.mk [.running, .arrived] (some 0) []).owner ≠ none →
      gateStep ⟨[.running, .arrived], some 0, []⟩ (.tryAcquire i) = some s' →
      phaseOf s' i = .waiting ∧ i ∈ s'.waiters) ∧
    (∀ i j rest s', (GateState.mk [.running, .arrived] (some 0) []).waiters = j :: rest →
      gateStep ⟨[.running, .arrived], some 0, []⟩ (.finish i) = some s' →
      phaseOf s' j = .running ∧ s'.owner = some j) :=
  detector_lock_serializes_predict 2 ⟨[.running, .arrived], some 0, []⟩
    (GateReaches.step GateReaches.refl
      (show gateStep (initGate 2) (.tryAcquire 0) =
        some ⟨[.running, .arrived], some 0, []⟩ by decide))
